import Mathlib

/-!
Verification of the image-edit bot repository (src/bot.py, src/utils.py,
src/config.py): a shallow embedding in Lean 4 of the aspect-ratio
classifier and of the submit / poll / fetch job client, together with
proofs of the specified properties.

Conventions of the embedding:
* Python integers are `Nat`. The classifier's float arithmetic (CPython
  floats are IEEE-754 binary64) has two renderings: an exact-rational
  idealization (`currentRatio`, `entryDist`, `get_aspect_ratioFn`), used
  for the properties on which it provably coincides with the machine
  (gcd-reduction and scale invariance, and the concrete reference values),
  and a machine-faithful rendering (`rnd64`, `currentRatioF`, `entryDistF`,
  `get_aspect_ratioFnF`) in which every float operation rounds to 53 bits,
  used where rounding changes the outcome (the tie-break behavior).
* Image bytes are `List Nat`.
* The network is an explicit environment: the outcome of the submission
  POST is a `SubmitOutcome` value, and the outcome of the poll GET of
  iteration `j` (counting from 0) together with the outcome of the result
  GET that iteration may trigger is `pollSteps j : PollStep`.
* Exceptions of the `requests` library (connection failures, and the
  `raise_for_status` exception on a non-2xx response) are the
  `transportError` / `fetchErr` constructors.
-/

/-- Python truthiness of an optional string: `None` and `""` are falsy.
`bot.py` relies on this both for `polling_url` (line 73) and for the
`sample` URL of a ready poll response (line 108). -/
def strTruthy : Option String → Bool
  | none => false
  | some s => s ≠ ""

namespace ImageProcessor

/-- `ImageProcessor.gcd` of src/utils.py lines 19-24: the Euclidean loop
`while b: a, b = b, a % b; return a`, written with explicit fuel so that it
is structurally recursive. `b + 1` units of fuel always suffice because the
second argument strictly decreases. -/
def gcdFuel : Nat → Nat → Nat → Nat
  | 0, a, _ => a
  | fuel + 1, a, b => if b = 0 then a else gcdFuel fuel b (a % b)

/-- `ImageProcessor.gcd a b` from src/utils.py. -/
def gcd (a b : Nat) : Nat := gcdFuel (b + 1) a b

/-- `ImageProcessor.SUPPORTED_RATIOS` of src/utils.py lines 12-17, in the
insertion order of the Python dict (which iteration preserves). -/
def SUPPORTED_RATIOS : List (String × Nat × Nat) :=
  [("1:1", 1, 1), ("4:3", 4, 3), ("3:4", 3, 4),
   ("16:9", 16, 9), ("9:16", 9, 16), ("21:9", 21, 9),
   ("9:21", 9, 21), ("3:2", 3, 2), ("2:3", 2, 3),
   ("7:3", 7, 3), ("3:7", 3, 7)]

/-- Python `abs` on a rational, written out as its defining conditional. -/
def pyAbs (q : ℚ) : ℚ := if q < 0 then -q else q

/-- The quantity `abs(current_ratio - target_ratio)` computed for a table
entry at src/utils.py lines 44-45, idealized to exact rational arithmetic
(the code computes in binary64 doubles; `entryDistF` below is the
machine-faithful version, and the two can disagree at exact-tie inputs). -/
def entryDist (current : ℚ) (e : String × Nat × Nat) : ℚ :=
  pyAbs (current - (e.2.1 : ℚ) / (e.2.2 : ℚ))

/-- The selection loop of src/utils.py lines 43-48: runs over the table
carrying `closest_ratio` and `min_diff`; `min_diff = float('inf')` at entry
is the `none` accumulator, so the first entry always replaces it; a later
entry replaces the accumulator only on a strict decrease (`diff < min_diff`). -/
def selectLoop (current : ℚ) : List (String × Nat × Nat) → String → Option ℚ → String
  | [], best, _ => best
  | e :: rest, best, acc =>
    match acc with
    | none => selectLoop current rest e.1 (some (entryDist current e))
    | some m =>
      if entryDist current e < m then selectLoop current rest e.1 (some (entryDist current e))
      else selectLoop current rest best (some m)

/-- The reduced ratio `ratio_width / ratio_height` computed at
src/utils.py lines 33-39: gcd reduction (exact), then float division,
idealized here to exact rational division (`currentRatioF` below is the
machine-faithful version with the quotient rounded to binary64). -/
def currentRatio (width height : Nat) : ℚ :=
  ((width / gcd width height : Nat) : ℚ) / ((height / gcd width height : Nat) : ℚ)

/-- `ImageProcessor.get_aspect_ratio` of src/utils.py lines 26-54,
restricted to its arithmetic core: the spec function
`Classify(width, height)`, in the exact-rational idealization of the float
arithmetic (the machine-faithful rendering is `get_aspect_ratioFnF`).
Image decoding (reading `image.size`) is out of scope; the caller
guarantees positive dimensions. -/
def get_aspect_ratioFn (width height : Nat) : String :=
  selectLoop (currentRatio width height) SUPPORTED_RATIOS "1:1" none

end ImageProcessor

namespace Bot

/-- The JSON body of one successful poll GET (src/bot.py line 101):
its `status` string, the nested `result.sample` URL if any, and the
`failure_reason` string if any. A missing `status` key would read back as
Python `None`; no claim involves it, and any value other than the three
recognized literals takes the same continue branch, so `status` is kept a
plain string. -/
structure PollResponse where
  status : String
  sample : Option String
  failure_reason : Option String
deriving DecidableEq

/-- Outcome of the result-image GET (src/bot.py lines 110-111), consulted
only when a poll response is Ready with a truthy sample URL: either the
response body bytes, or a `requests` exception (connection failure or
`raise_for_status`). -/
inductive FetchOutcome where
  | ok (bytes : List Nat)
  | fetchErr
deriving DecidableEq

/-- Behavior of the environment at one poll-loop iteration: either the poll
GET itself raises (src/bot.py lines 95-101 failing, caught at lines
123-128), or it yields a parsed `PollResponse`, bundled with the outcome
the result GET would have if this iteration performs one. -/
inductive PollStep where
  | transportError
  | resp (r : PollResponse) (fetch : FetchOutcome)
deriving DecidableEq

/-- Outcome of the submission POST of src/bot.py lines 61-71:
`transportError` covers a connection-level failure and the
`raise_for_status` exception on a non-2xx response (both raise
`requests.exceptions.RequestException`, caught at line 82); otherwise the
parsed body's `polling_url` and `id` fields. -/
inductive SubmitOutcome where
  | transportError
  | resp (polling_url : Option String) (id : Option String)
deriving DecidableEq

/-- The exit taken by `edit_image`. The Python function returns
`Optional[bytes]` and every non-success exit returns `None`; the
constructors record which return statement produced it (they are
distinguished in the code only by their log lines):
`submissionFailed` = lines 75/84, `jobFailed` = line 121 with the extracted
reason, `readyNoSample` = line 116, `timedOut` = line 131. -/
inductive EditResult where
  | success (bytes : List Nat)
  | submissionFailed
  | jobFailed (reason : String)
  | readyNoSample
  | timedOut
deriving DecidableEq

/-- Result of a run together with the number of poll GET requests issued. -/
structure EditRun where
  result : EditResult
  polls : Nat
deriving DecidableEq

/-- The poll loop of `BFLImageEditor._poll_for_result`, src/bot.py lines
91-131. `remaining` is the number of loop iterations left (the loop runs
`poll_count` from 1 to `max_polls`), `done` the number of poll requests
already issued. Each iteration issues one GET; a transport error on it is
caught and the loop continues; a `Ready` status with a truthy sample URL
triggers the result GET, whose own transport error is caught by the same
handler and also continues the loop; `Ready` without a truthy sample
returns immediately (line 116); an `Error` or `Failed` status returns
immediately with the `failure_reason` field or the default
`"Unknown error"` (lines 118-121); any other status continues. Exhausting
the loop returns the timeout exit (line 131). -/
def pollAux (steps : Nat → PollStep) : Nat → Nat → EditRun
  | 0, done => ⟨.timedOut, done⟩
  | remaining + 1, done =>
    match steps done with
    | .transportError => pollAux steps remaining (done + 1)
    | .resp r fetch =>
      if r.status = "Ready" then
        if strTruthy r.sample then
          match fetch with
          | .ok bytes => ⟨.success bytes, done + 1⟩
          | .fetchErr => pollAux steps remaining (done + 1)
        else ⟨.readyNoSample, done + 1⟩
      else if r.status = "Error" ∨ r.status = "Failed" then
        ⟨.jobFailed (r.failure_reason.getD "Unknown error"), done + 1⟩
      else pollAux steps remaining (done + 1)

/-- `BFLImageEditor.edit_image`, src/bot.py lines 47-87: submit, check the
`polling_url` field for truthiness, then poll. A submission transport
error or a falsy `polling_url` returns immediately with zero poll
requests issued. -/
def edit_image (submit : SubmitOutcome) (steps : Nat → PollStep) (maxPolls : Nat) : EditRun :=
  match submit with
  | .transportError => ⟨.submissionFailed, 0⟩
  | .resp polling_url _id =>
    if strTruthy polling_url then pollAux steps maxPolls 0
    else ⟨.submissionFailed, 0⟩

/-- Collapse an exit to the value the Python caller actually receives:
`edit_image` returns the image bytes on success and `None` on every other
exit. -/
def toOption : EditResult → Option (List Nat)
  | .success bytes => some bytes
  | _ => none

/-- A step on which the loop body reaches `continue` (or falls off the end
of the iteration): a poll transport error, a Ready response with truthy
sample whose result GET fails, or any status other than Ready / Error /
Failed. -/
def PollStep.continues : PollStep → Bool
  | .transportError => true
  | .resp r fetch =>
    if r.status = "Ready" then
      if strTruthy r.sample then
        match fetch with
        | .ok _ => false
        | .fetchErr => true
      else false
    else if r.status = "Error" ∨ r.status = "Failed" then false
    else true

/-- A step that continues the loop without attempting any result GET: a
poll transport error or a response whose status is none of the three
recognized literals. -/
def PollStep.pendingLike : PollStep → Bool
  | .transportError => true
  | .resp r _ => ¬(r.status = "Ready" ∨ r.status = "Error" ∨ r.status = "Failed")

/-- Whether iteration `j`, if reached, issues a result-image GET: exactly
the Ready responses with a truthy sample URL (src/bot.py lines 106-110). -/
def isFetchStep : PollStep → Bool
  | .transportError => false
  | .resp r _ => r.status = "Ready" && strTruthy r.sample

/-- Number of result-image GET requests attempted during the first `n`
poll iterations. -/
def fetchAttempts (steps : Nat → PollStep) (n : Nat) : Nat :=
  ((List.range n).filter fun j => isFetchStep (steps j)).length

end Bot

namespace ImageProcessor

/-- With more fuel than the value of the second argument, the fuelled
Euclidean loop agrees with `Nat.gcd` (arguments swapped: the loop recurses
on its second argument, `Nat.gcd` on its first). -/
theorem gcdFuel_eq_gcd : ∀ (fuel a b : Nat), b < fuel → gcdFuel fuel a b = Nat.gcd b a := by
  intro fuel
  induction fuel with
  | zero => intro a b h; exact absurd h (Nat.not_lt_zero b)
  | succ f ih =>
    intro a b h
    by_cases hb : b = 0
    · subst hb; simp [gcdFuel]
    · rw [gcdFuel, if_neg hb,
        ih b (a % b) (Nat.lt_of_lt_of_le (Nat.mod_lt a (Nat.pos_of_ne_zero hb))
          (Nat.le_of_lt_succ h))]
      exact (Nat.gcd_rec b a).symm

/-- The embedded Euclidean loop is `Nat.gcd` with swapped arguments. -/
theorem gcd_eq_gcd (a b : Nat) : gcd a b = Nat.gcd b a :=
  gcdFuel_eq_gcd (b + 1) a b (Nat.lt_succ_self b)

end ImageProcessor

namespace Bot

/-- Unfolding one loop iteration on a step whose branch reaches `continue`:
the iteration consumes one unit of budget and one poll request. -/
theorem pollAux_continue (steps : Nat → PollStep) (rem done : Nat)
    (h : (steps done).continues = true) :
    pollAux steps (rem + 1) done = pollAux steps rem (done + 1) := by
  cases hs : steps done with
  | transportError => simp [pollAux, hs]
  | resp r f =>
    rw [hs] at h
    by_cases hR : r.status = "Ready"
    · by_cases hT : strTruthy r.sample = true
      · cases f with
        | ok bytes => simp [PollStep.continues, hR, hT] at h
        | fetchErr => simp [pollAux, hs, hR, hT]
      · simp [PollStep.continues, hR, hT] at h
    · by_cases hE : r.status = "Error" ∨ r.status = "Failed"
      · simp [PollStep.continues, hR, hE] at h
      · simp [pollAux, hs, hR, hE]

/-- The loop skips over any prefix of continuing steps, counting each one. -/
theorem pollAux_skip (steps : Nat → PollStep) :
    ∀ (k rem done : Nat),
      (∀ j, j < k → (steps (done + j)).continues = true) →
      pollAux steps (k + rem) done = pollAux steps rem (done + k) := by
  intro k
  induction k with
  | zero => intro rem done _; simp
  | succ n ih =>
    intro rem done h
    have h0 : (steps done).continues = true := by simpa using h 0 (Nat.succ_pos n)
    have hstep : pollAux steps (n + 1 + rem) done = pollAux steps (n + rem) (done + 1) := by
      rw [Nat.succ_add n rem]
      exact pollAux_continue steps (n + rem) done h0
    rw [hstep, ih rem (done + 1) (fun j hj => by
      have := h (j + 1) (Nat.succ_lt_succ hj)
      simpa [Nat.add_assoc, Nat.add_comm 1 j] using this)]
    congr 1
    omega

/-- If the first `k` steps continue and the budget exceeds `k`, the run is
the run of the residual loop positioned at step `k`. -/
theorem pollAux_reach (steps : Nat → PollStep) (k maxPolls : Nat)
    (hk : k < maxPolls)
    (hpre : ∀ j, j < k → (steps j).continues = true) :
    pollAux steps maxPolls 0 = pollAux steps (maxPolls - k) k := by
  have h2 := pollAux_skip steps k (maxPolls - k) 0 (fun j hj => by simpa using hpre j hj)
  have h1 : k + (maxPolls - k) = maxPolls := by omega
  rw [h1] at h2
  simpa using h2

/-- An `Error` or `Failed` status returns the failure exit at once. -/
theorem pollAux_failed (steps : Nat → PollStep) (rem done : Nat)
    (r : PollResponse) (f : FetchOutcome)
    (hs : steps done = .resp r f)
    (hr : r.status = "Error" ∨ r.status = "Failed") :
    pollAux steps (rem + 1) done
      = ⟨.jobFailed (r.failure_reason.getD "Unknown error"), done + 1⟩ := by
  have hne : ¬r.status = "Ready" := by rcases hr with h | h <;> simp [h]
  simp [pollAux, hs, hne, hr]

/-- A `Ready` status with a truthy sample URL and a successful result GET
returns the bytes at once. -/
theorem pollAux_ready_ok (steps : Nat → PollStep) (rem done : Nat)
    (r : PollResponse) (bytes : List Nat)
    (hs : steps done = .resp r (.ok bytes))
    (hr : r.status = "Ready") (ht : strTruthy r.sample = true) :
    pollAux steps (rem + 1) done = ⟨.success bytes, done + 1⟩ := by
  simp [pollAux, hs, hr, ht]

/-- A `Ready` status without a truthy sample URL returns the no-sample
failure exit at once, fetching nothing. -/
theorem pollAux_ready_noSample (steps : Nat → PollStep) (rem done : Nat)
    (r : PollResponse) (f : FetchOutcome)
    (hs : steps done = .resp r f)
    (hr : r.status = "Ready") (ht : strTruthy r.sample = false) :
    pollAux steps (rem + 1) done = ⟨.readyNoSample, done + 1⟩ := by
  simp [pollAux, hs, hr, ht]

/-- A pending-like step (transport error or unrecognized status) continues
the loop. -/
theorem PollStep.continues_of_pendingLike (s : PollStep) (h : s.pendingLike = true) :
    s.continues = true := by
  cases s with
  | transportError => rfl
  | resp r f =>
    simp only [PollStep.pendingLike, decide_eq_true_eq] at h
    push_neg at h
    obtain ⟨h1, h2, h3⟩ := h
    simp [PollStep.continues, h1, h2, h3]

/-- A pending-like step attempts no result GET. -/
theorem PollStep.not_fetch_of_pendingLike (s : PollStep) (h : s.pendingLike = true) :
    isFetchStep s = false := by
  cases s with
  | transportError => rfl
  | resp r f =>
    simp only [PollStep.pendingLike, decide_eq_true_eq] at h
    push_neg at h
    simp [isFetchStep, h.1]

/-- If none of the first `n` iterations is a fetching one, no result GET is
attempted in them. -/
theorem fetchAttempts_eq_zero (steps : Nat → PollStep) (n : Nat)
    (h : ∀ j, j < n → isFetchStep (steps j) = false) :
    fetchAttempts steps n = 0 := by
  unfold fetchAttempts
  rw [List.length_eq_zero, List.filter_eq_nil_iff]
  intro a ha
  simp [h a (List.mem_range.mp ha)]

end Bot

namespace ImageProcessor

/-- One step of binary decomposition for the base-2 logarithm: the state is
an accumulated exponent and a remainder; if the remainder still holds a
factor `2 ^ p`, divide it out and add `p`. -/
def log2Step (p : Nat) (s : Nat × Nat) : Nat × Nat :=
  if 2 ^ p ≤ s.2 then (s.1 + p, s.2 / 2 ^ p) else s

/-- Floor of the base-2 logarithm of `n`, by binary decomposition with
exponents 64, 32, 16, 8, 4, 2, 1 (correct for `1 ≤ n < 2 ^ 128`). -/
def natLog2 (n : Nat) : Nat :=
  (log2Step 1 (log2Step 2 (log2Step 4 (log2Step 8
    (log2Step 16 (log2Step 32 (log2Step 64 (0, n)))))))).1

/-- Floor of the base-2 logarithm of a positive rational, computed through
the scaled integer `⌊q * 2 ^ 60⌋` (correct for `2 ^ (-60) ≤ q < 2 ^ 68`,
which covers every value the classifier computes). -/
def ratExp2 (q : ℚ) : ℤ := (natLog2 (⌊q * 2 ^ 60⌋).toNat : ℤ) - 60

/-- Round a rational to the nearest integer, ties to even: the rounding of
IEEE-754 round-to-nearest mode applied to a scaled significand. -/
def roundTiesEven (q : ℚ) : ℤ :=
  let f := ⌊q⌋
  if q - (f : ℚ) < 1 / 2 then f
  else if (1 : ℚ) / 2 < q - (f : ℚ) then f + 1
  else if f % 2 = 0 then f else f + 1

/-- Round a positive rational to 53 significant bits: scale into
`[2 ^ 52, 2 ^ 53)` using the exponent from `ratExp2`, round to the nearest
integer significand (ties to even), and scale back. -/
def rnd64Pos (q : ℚ) : ℚ :=
  let s : ℤ := 52 - ratExp2 q
  if 0 ≤ s then
    ((roundTiesEven (q * ((2 ^ s.toNat : ℕ) : ℚ)) : ℚ) / ((2 ^ s.toNat : ℕ) : ℚ))
  else
    ((roundTiesEven (q / ((2 ^ (-s).toNat : ℕ) : ℚ)) : ℚ) * ((2 ^ (-s).toNat : ℕ) : ℚ))

/-- The exact value of the IEEE-754 binary64 (CPython `float`) nearest to
the exact rational `q`, for values in the normal range (no overflow and no
subnormals, which holds for every value the classifier computes: all lie
between roughly `1/7` and `21`). CPython's `int / int` true division and
its `float` subtraction are correctly rounded binary64 operations, so each
is `rnd64` of the exact rational result. -/
def rnd64 (q : ℚ) : ℚ :=
  if q < 0 then -rnd64Pos (-q) else if q = 0 then 0 else rnd64Pos q

/-- The quantity `abs(current_ratio - target_ratio)` of src/utils.py lines
44-45 as the machine computes it: the table ratio `r_w / r_h` is a rounded
binary64 quotient, the subtraction is rounded, `abs` is exact. -/
def entryDistF (current : ℚ) (e : String × Nat × Nat) : ℚ :=
  pyAbs (rnd64 (current - rnd64 ((e.2.1 : ℚ) / (e.2.2 : ℚ))))

/-- The selection loop of src/utils.py lines 43-48 in machine (binary64)
arithmetic; same structure as `selectLoop`, with `entryDistF` in place of
the exact `entryDist`. -/
def selectLoopF (current : ℚ) : List (String × Nat × Nat) → String → Option ℚ → String
  | [], best, _ => best
  | e :: rest, best, acc =>
    match acc with
    | none => selectLoopF current rest e.1 (some (entryDistF current e))
    | some m =>
      if entryDistF current e < m then selectLoopF current rest e.1 (some (entryDistF current e))
      else selectLoopF current rest best (some m)

/-- The reduced ratio of src/utils.py line 39 as the machine computes it:
the integer divisions by the gcd are exact, the final `int / int` true
division is a rounded binary64 quotient. -/
def currentRatioF (width height : Nat) : ℚ :=
  rnd64 (((width / gcd width height : Nat) : ℚ) / ((height / gcd width height : Nat) : ℚ))

/-- `ImageProcessor.get_aspect_ratio` of src/utils.py lines 26-54 in
machine (binary64) arithmetic: the rendering of the same code as
`get_aspect_ratioFn`, differing only in that every float operation rounds
to 53 bits as the hardware does. -/
def get_aspect_ratioFnF (width height : Nat) : String :=
  selectLoopF (currentRatioF width height) SUPPORTED_RATIOS "1:1" none

/-- Evaluation scheme for `rnd64` at a positive rational: supply the
scaled floor `N`, its base-2 logarithm `L` and the rounded significand
`m`; the rounded value is `m / 2 ^ (112 - L)`. -/
theorem rnd64_eval (q : ℚ) (N L : ℕ) (m : ℤ)
    (hq : 0 < q)
    (hN : ⌊q * 2 ^ 60⌋ = (N : ℤ))
    (hL : natLog2 N = L)
    (hL112 : L ≤ 112)
    (hm : roundTiesEven (q * ((2 ^ (112 - L) : ℕ) : ℚ)) = m) :
    rnd64 q = (m : ℚ) / ((2 ^ (112 - L) : ℕ) : ℚ) := by
  have hq0 : ¬q < 0 := not_lt.mpr (le_of_lt hq)
  have hqne : ¬q = 0 := ne_of_gt hq
  have he : ratExp2 q = (L : ℤ) - 60 := by
    rw [ratExp2, hN]
    simp [hL]
  have hs : (52 : ℤ) - ((L : ℤ) - 60) = ((112 - L : ℕ) : ℤ) := by omega
  have hs0 : (0 : ℤ) ≤ ((112 - L : ℕ) : ℤ) := Int.natCast_nonneg _
  have hsn : (((112 - L : ℕ) : ℤ)).toNat = 112 - L := by omega
  rw [rnd64, if_neg hq0, if_neg hqne]
  simp only [rnd64Pos, he, hs, hsn, if_pos hs0]
  rw [hm]

/-- Binary64 rounding commutes with negation. -/
theorem rnd64_neg (q : ℚ) : rnd64 (-q) = -rnd64 q := by
  simp only [rnd64]
  rcases lt_trichotomy q 0 with h | h | h
  · have hn1 : ¬(-q < 0) := by linarith
    have hn2 : ¬(-q = 0) := fun h2 => h.ne (neg_eq_zero.mp h2)
    rw [if_neg hn1, if_neg hn2, if_pos h, neg_neg]
  · rw [h]
    norm_num
  · have hp : -q < 0 := by linarith
    rw [if_pos hp, if_neg (not_lt.mpr h.le), if_neg h.ne', neg_neg]

/-- The machine selection loop on the empty table returns the carried
label. -/
theorem selectLoopF_nil (current : ℚ) (best : String) (acc : Option ℚ) :
    selectLoopF current [] best acc = best := rfl

/-- The machine selection loop's first iteration always replaces the
infinite accumulator. -/
theorem selectLoopF_cons_none (current : ℚ) (e : String × Nat × Nat)
    (l : List (String × Nat × Nat)) (best : String) :
    selectLoopF current (e :: l) best none
      = selectLoopF current l e.1 (some (entryDistF current e)) := rfl

/-- A strictly smaller machine distance replaces the accumulator. -/
theorem selectLoopF_cons_lt (current : ℚ) (e : String × Nat × Nat)
    (l : List (String × Nat × Nat)) (best : String) (m : ℚ)
    (h : entryDistF current e < m) :
    selectLoopF current (e :: l) best (some m)
      = selectLoopF current l e.1 (some (entryDistF current e)) := by
  simp only [selectLoopF]
  rw [if_pos h]

/-- A machine distance that does not strictly improve keeps the carried
label and accumulator. -/
theorem selectLoopF_cons_ge (current : ℚ) (e : String × Nat × Nat)
    (l : List (String × Nat × Nat)) (best : String) (m : ℚ)
    (h : ¬entryDistF current e < m) :
    selectLoopF current (e :: l) best (some m)
      = selectLoopF current l best (some m) := by
  simp only [selectLoopF]
  rw [if_neg h]

/-- Unfolding of the machine distance at an explicit table entry. -/
theorem entryDistF_def (c : ℚ) (lab : String) (a b : Nat) :
    entryDistF c (lab, a, b) = pyAbs (rnd64 (c - rnd64 ((a : ℚ) / (b : ℚ)))) := rfl

set_option maxRecDepth 8000 in
set_option maxHeartbeats 1000000 in
/-- The binary64 value of the reduced ratio 7/6. -/
theorem rnd64_current76 : rnd64 ((7 : ℚ) / 6) = 5254199565265579 / 4503599627370496 := by
    have h := rnd64_eval (7 / 6 : ℚ) 1345075088707988138 60 5254199565265579
      (by norm_num) (by norm_num) (by simp [natLog2, log2Step]) (by norm_num)
      (by norm_num [roundTiesEven])
    rw [h]
    norm_num

set_option maxRecDepth 8000 in
set_option maxHeartbeats 1000000 in
/-- The binary64 distance computed at the 1:1 entry for the reduced ratio 7/6. -/
theorem entryDistF76_11 :
    entryDistF (5254199565265579 / 4503599627370496) ("1:1", 1, 1) = 750599937895083 / 4503599627370496 := by
  have hfl : rnd64 ((1 : ℚ) / 1) = 1 := by
    have h := rnd64_eval (1 / 1 : ℚ) 1152921504606846976 60 4503599627370496
      (by norm_num) (by norm_num) (by simp [natLog2, log2Step]) (by norm_num)
      (by norm_num [roundTiesEven])
    rw [h]
    norm_num
  have hd : rnd64 ((750599937895083 : ℚ) / 4503599627370496) = 750599937895083 / 4503599627370496 := by
    have h := rnd64_eval (750599937895083 / 4503599627370496 : ℚ) 192153584101141248 57 6004799503160664
      (by norm_num) (by norm_num) (by simp [natLog2, log2Step]) (by norm_num)
      (by norm_num [roundTiesEven])
    rw [h]
    norm_num
  rw [entryDistF_def]
  push_cast
  rw [hfl]
  rw [show (5254199565265579 / 4503599627370496 : ℚ) - (1) = (750599937895083 : ℚ) / 4503599627370496 from by norm_num]
  rw [hd]
  norm_num [pyAbs]

set_option maxRecDepth 8000 in
set_option maxHeartbeats 1000000 in
/-- The binary64 distance computed at the 4:3 entry for the reduced ratio 7/6. -/
theorem entryDistF76_43 :
    entryDistF (5254199565265579 / 4503599627370496) ("4:3", 4, 3) = 375299968947541 / 2251799813685248 := by
  have hfl : rnd64 ((4 : ℚ) / 3) = 6004799503160661 / 4503599627370496 := by
    have h := rnd64_eval (4 / 3 : ℚ) 1537228672809129301 60 6004799503160661
      (by norm_num) (by norm_num) (by simp [natLog2, log2Step]) (by norm_num)
      (by norm_num [roundTiesEven])
    rw [h]
    norm_num
  have hd : rnd64 ((375299968947541 : ℚ) / 2251799813685248) = 375299968947541 / 2251799813685248 := by
    have h := rnd64_eval (375299968947541 / 2251799813685248 : ℚ) 192153584101140992 57 6004799503160656
      (by norm_num) (by norm_num) (by simp [natLog2, log2Step]) (by norm_num)
      (by norm_num [roundTiesEven])
    rw [h]
    norm_num
  rw [entryDistF_def]
  push_cast
  rw [hfl]
  rw [show (5254199565265579 / 4503599627370496 : ℚ) - (6004799503160661 / 4503599627370496) = -((375299968947541 : ℚ) / 2251799813685248) from by norm_num]
  rw [rnd64_neg, hd]
  norm_num [pyAbs]

set_option maxRecDepth 8000 in
set_option maxHeartbeats 1000000 in
/-- The binary64 distance computed at the 3:4 entry for the reduced ratio 7/6. -/
theorem entryDistF76_34 :
    entryDistF (5254199565265579 / 4503599627370496) ("3:4", 3, 4) = 1876499844737707 / 4503599627370496 := by
  have hfl : rnd64 ((3 : ℚ) / 4) = 3 / 4 := by
    have h := rnd64_eval (3 / 4 : ℚ) 864691128455135232 59 6755399441055744
      (by norm_num) (by norm_num) (by simp [natLog2, log2Step]) (by norm_num)
      (by norm_num [roundTiesEven])
    rw [h]
    norm_num
  have hd : rnd64 ((1876499844737707 : ℚ) / 4503599627370496) = 1876499844737707 / 4503599627370496 := by
    have h := rnd64_eval (1876499844737707 / 4503599627370496 : ℚ) 480383960252852992 58 7505999378950828
      (by norm_num) (by norm_num) (by simp [natLog2, log2Step]) (by norm_num)
      (by norm_num [roundTiesEven])
    rw [h]
    norm_num
  rw [entryDistF_def]
  push_cast
  rw [hfl]
  rw [show (5254199565265579 / 4503599627370496 : ℚ) - (3 / 4) = (1876499844737707 : ℚ) / 4503599627370496 from by norm_num]
  rw [hd]
  norm_num [pyAbs]

set_option maxRecDepth 8000 in
set_option maxHeartbeats 1000000 in
/-- The binary64 distance computed at the 16:9 entry for the reduced ratio 7/6. -/
theorem entryDistF76_169 :
    entryDistF (5254199565265579 / 4503599627370496) ("16:9", 16, 9) = 2752199772281969 / 4503599627370496 := by
  have hfl : rnd64 ((16 : ℚ) / 9) = 2001599834386887 / 1125899906842624 := by
    have h := rnd64_eval (16 / 9 : ℚ) 2049638230412172401 60 8006399337547548
      (by norm_num) (by norm_num) (by simp [natLog2, log2Step]) (by norm_num)
      (by norm_num [roundTiesEven])
    rw [h]
    norm_num
  have hd : rnd64 ((2752199772281969 : ℚ) / 4503599627370496) = 2752199772281969 / 4503599627370496 := by
    have h := rnd64_eval (2752199772281969 / 4503599627370496 : ℚ) 704563141704184064 59 5504399544563938
      (by norm_num) (by norm_num) (by simp [natLog2, log2Step]) (by norm_num)
      (by norm_num [roundTiesEven])
    rw [h]
    norm_num
  rw [entryDistF_def]
  push_cast
  rw [hfl]
  rw [show (5254199565265579 / 4503599627370496 : ℚ) - (2001599834386887 / 1125899906842624) = -((2752199772281969 : ℚ) / 4503599627370496) from by norm_num]
  rw [rnd64_neg, hd]
  norm_num [pyAbs]

set_option maxRecDepth 8000 in
set_option maxHeartbeats 1000000 in
/-- The binary64 distance computed at the 9:16 entry for the reduced ratio 7/6. -/
theorem entryDistF76_916 :
    entryDistF (5254199565265579 / 4503599627370496) ("9:16", 9, 16) = 2720924774869675 / 4503599627370496 := by
  have hfl : rnd64 ((9 : ℚ) / 16) = 9 / 16 := by
    have h := rnd64_eval (9 / 16 : ℚ) 648518346341351424 59 5066549580791808
      (by norm_num) (by norm_num) (by simp [natLog2, log2Step]) (by norm_num)
      (by norm_num [roundTiesEven])
    rw [h]
    norm_num
  have hd : rnd64 ((2720924774869675 : ℚ) / 4503599627370496) = 2720924774869675 / 4503599627370496 := by
    have h := rnd64_eval (2720924774869675 / 4503599627370496 : ℚ) 696556742366636800 59 5441849549739350
      (by norm_num) (by norm_num) (by simp [natLog2, log2Step]) (by norm_num)
      (by norm_num [roundTiesEven])
    rw [h]
    norm_num
  rw [entryDistF_def]
  push_cast
  rw [hfl]
  rw [show (5254199565265579 / 4503599627370496 : ℚ) - (9 / 16) = (2720924774869675 : ℚ) / 4503599627370496 from by norm_num]
  rw [hd]
  norm_num [pyAbs]

set_option maxRecDepth 8000 in
set_option maxHeartbeats 1000000 in
/-- The binary64 distance computed at the 21:9 entry for the reduced ratio 7/6. -/
theorem entryDistF76_219 :
    entryDistF (5254199565265579 / 4503599627370496) ("21:9", 21, 9) = 5254199565265579 / 4503599627370496 := by
  have hfl : rnd64 ((21 : ℚ) / 9) = 5254199565265579 / 2251799813685248 := by
    have h := rnd64_eval (21 / 9 : ℚ) 2690150177415976277 61 5254199565265579
      (by norm_num) (by norm_num) (by simp [natLog2, log2Step]) (by norm_num)
      (by norm_num [roundTiesEven])
    rw [h]
    norm_num
  have hd : rnd64 ((5254199565265579 : ℚ) / 4503599627370496) = 5254199565265579 / 4503599627370496 := by
    have h := rnd64_eval (5254199565265579 / 4503599627370496 : ℚ) 1345075088707988224 60 5254199565265579
      (by norm_num) (by norm_num) (by simp [natLog2, log2Step]) (by norm_num)
      (by norm_num [roundTiesEven])
    rw [h]
    norm_num
  rw [entryDistF_def]
  push_cast
  rw [hfl]
  rw [show (5254199565265579 / 4503599627370496 : ℚ) - (5254199565265579 / 2251799813685248) = -((5254199565265579 : ℚ) / 4503599627370496) from by norm_num]
  rw [rnd64_neg, hd]
  norm_num [pyAbs]

set_option maxRecDepth 8000 in
set_option maxHeartbeats 1000000 in
/-- The binary64 distance computed at the 9:21 entry for the reduced ratio 7/6. -/
theorem entryDistF76_921 :
    entryDistF (5254199565265579 / 4503599627370496) ("9:21", 9, 21) = 831021359812413 / 1125899906842624 := by
  have hfl : rnd64 ((9 : ℚ) / 21) = 7720456504063707 / 18014398509481984 := by
    have h := rnd64_eval (9 / 21 : ℚ) 494109216260077275 58 7720456504063707
      (by norm_num) (by norm_num) (by simp [natLog2, log2Step]) (by norm_num)
      (by norm_num [roundTiesEven])
    rw [h]
    norm_num
  have hd : rnd64 ((13296341756998609 : ℚ) / 18014398509481984) = 831021359812413 / 1125899906842624 := by
    have h := rnd64_eval (13296341756998609 / 18014398509481984 : ℚ) 850965872447910976 59 6648170878499304
      (by norm_num) (by norm_num) (by simp [natLog2, log2Step]) (by norm_num)
      (by norm_num [roundTiesEven])
    rw [h]
    norm_num
  rw [entryDistF_def]
  push_cast
  rw [hfl]
  rw [show (5254199565265579 / 4503599627370496 : ℚ) - (7720456504063707 / 18014398509481984) = (13296341756998609 : ℚ) / 18014398509481984 from by norm_num]
  rw [hd]
  norm_num [pyAbs]

set_option maxRecDepth 8000 in
set_option maxHeartbeats 1000000 in
/-- The binary64 distance computed at the 3:2 entry for the reduced ratio 7/6. -/
theorem entryDistF76_32 :
    entryDistF (5254199565265579 / 4503599627370496) ("3:2", 3, 2) = 1501199875790165 / 4503599627370496 := by
  have hfl : rnd64 ((3 : ℚ) / 2) = 3 / 2 := by
    have h := rnd64_eval (3 / 2 : ℚ) 1729382256910270464 60 6755399441055744
      (by norm_num) (by norm_num) (by simp [natLog2, log2Step]) (by norm_num)
      (by norm_num [roundTiesEven])
    rw [h]
    norm_num
  have hd : rnd64 ((1501199875790165 : ℚ) / 4503599627370496) = 1501199875790165 / 4503599627370496 := by
    have h := rnd64_eval (1501199875790165 / 4503599627370496 : ℚ) 384307168202282240 58 6004799503160660
      (by norm_num) (by norm_num) (by simp [natLog2, log2Step]) (by norm_num)
      (by norm_num [roundTiesEven])
    rw [h]
    norm_num
  rw [entryDistF_def]
  push_cast
  rw [hfl]
  rw [show (5254199565265579 / 4503599627370496 : ℚ) - (3 / 2) = -((1501199875790165 : ℚ) / 4503599627370496) from by norm_num]
  rw [rnd64_neg, hd]
  norm_num [pyAbs]

set_option maxRecDepth 8000 in
set_option maxHeartbeats 1000000 in
/-- The binary64 distance computed at the 2:3 entry for the reduced ratio 7/6. -/
theorem entryDistF76_23 :
    entryDistF (5254199565265579 / 4503599627370496) ("2:3", 2, 3) = 4503599627370497 / 9007199254740992 := by
  have hfl : rnd64 ((2 : ℚ) / 3) = 6004799503160661 / 9007199254740992 := by
    have h := rnd64_eval (2 / 3 : ℚ) 768614336404564650 59 6004799503160661
      (by norm_num) (by norm_num) (by simp [natLog2, log2Step]) (by norm_num)
      (by norm_num [roundTiesEven])
    rw [h]
    norm_num
  have hd : rnd64 ((4503599627370497 : ℚ) / 9007199254740992) = 4503599627370497 / 9007199254740992 := by
    have h := rnd64_eval (4503599627370497 / 9007199254740992 : ℚ) 576460752303423616 59 4503599627370497
      (by norm_num) (by norm_num) (by simp [natLog2, log2Step]) (by norm_num)
      (by norm_num [roundTiesEven])
    rw [h]
    norm_num
  rw [entryDistF_def]
  push_cast
  rw [hfl]
  rw [show (5254199565265579 / 4503599627370496 : ℚ) - (6004799503160661 / 9007199254740992) = (4503599627370497 : ℚ) / 9007199254740992 from by norm_num]
  rw [hd]
  norm_num [pyAbs]

set_option maxRecDepth 8000 in
set_option maxHeartbeats 1000000 in
/-- The binary64 distance computed at the 7:3 entry for the reduced ratio 7/6. -/
theorem entryDistF76_73 :
    entryDistF (5254199565265579 / 4503599627370496) ("7:3", 7, 3) = 5254199565265579 / 4503599627370496 := by
  have hfl : rnd64 ((7 : ℚ) / 3) = 5254199565265579 / 2251799813685248 := by
    have h := rnd64_eval (7 / 3 : ℚ) 2690150177415976277 61 5254199565265579
      (by norm_num) (by norm_num) (by simp [natLog2, log2Step]) (by norm_num)
      (by norm_num [roundTiesEven])
    rw [h]
    norm_num
  have hd : rnd64 ((5254199565265579 : ℚ) / 4503599627370496) = 5254199565265579 / 4503599627370496 := by
    have h := rnd64_eval (5254199565265579 / 4503599627370496 : ℚ) 1345075088707988224 60 5254199565265579
      (by norm_num) (by norm_num) (by simp [natLog2, log2Step]) (by norm_num)
      (by norm_num [roundTiesEven])
    rw [h]
    norm_num
  rw [entryDistF_def]
  push_cast
  rw [hfl]
  rw [show (5254199565265579 / 4503599627370496 : ℚ) - (5254199565265579 / 2251799813685248) = -((5254199565265579 : ℚ) / 4503599627370496) from by norm_num]
  rw [rnd64_neg, hd]
  norm_num [pyAbs]

set_option maxRecDepth 8000 in
set_option maxHeartbeats 1000000 in
/-- The binary64 distance computed at the 3:7 entry for the reduced ratio 7/6. -/
theorem entryDistF76_37 :
    entryDistF (5254199565265579 / 4503599627370496) ("3:7", 3, 7) = 831021359812413 / 1125899906842624 := by
  have hfl : rnd64 ((3 : ℚ) / 7) = 7720456504063707 / 18014398509481984 := by
    have h := rnd64_eval (3 / 7 : ℚ) 494109216260077275 58 7720456504063707
      (by norm_num) (by norm_num) (by simp [natLog2, log2Step]) (by norm_num)
      (by norm_num [roundTiesEven])
    rw [h]
    norm_num
  have hd : rnd64 ((13296341756998609 : ℚ) / 18014398509481984) = 831021359812413 / 1125899906842624 := by
    have h := rnd64_eval (13296341756998609 / 18014398509481984 : ℚ) 850965872447910976 59 6648170878499304
      (by norm_num) (by norm_num) (by simp [natLog2, log2Step]) (by norm_num)
      (by norm_num [roundTiesEven])
    rw [h]
    norm_num
  rw [entryDistF_def]
  push_cast
  rw [hfl]
  rw [show (5254199565265579 / 4503599627370496 : ℚ) - (7720456504063707 / 18014398509481984) = (13296341756998609 : ℚ) / 18014398509481984 from by norm_num]
  rw [hd]
  norm_num [pyAbs]

set_option maxRecDepth 8000 in
/-- The machine (binary64) classifier at the failing input (7, 6):
the rounded distance to the 4:3 entry is strictly below the rounded
distance to the 1:1 entry, so the strict-decrease loop replaces the
earlier entry and returns "4:3". -/
theorem get_aspect_ratioFnF_76 : get_aspect_ratioFnF 7 6 = "4:3" := by
  have h7 : (7 / gcd 7 6 : Nat) = 7 := by rw [gcd_eq_gcd]; norm_num
  have h6 : (6 / gcd 7 6 : Nat) = 6 := by rw [gcd_eq_gcd]; norm_num
  have hcur : currentRatioF 7 6 = 5254199565265579 / 4503599627370496 := by
    rw [currentRatioF, h7, h6]
    push_cast
    exact rnd64_current76
  rw [get_aspect_ratioFnF, hcur, SUPPORTED_RATIOS]
  rw [selectLoopF_cons_none, entryDistF76_11]
  have hlt : entryDistF (5254199565265579 / 4503599627370496) ("4:3", 4, 3) < 750599937895083 / 4503599627370496 := by
    rw [entryDistF76_43]; norm_num
  rw [selectLoopF_cons_lt _ _ _ _ _ hlt, entryDistF76_43]
  have hge34 : ¬entryDistF (5254199565265579 / 4503599627370496) ("3:4", 3, 4) < 375299968947541 / 2251799813685248 := by
    rw [entryDistF76_34]; norm_num
  rw [selectLoopF_cons_ge _ _ _ _ _ hge34]
  have hge169 : ¬entryDistF (5254199565265579 / 4503599627370496) ("16:9", 16, 9) < 375299968947541 / 2251799813685248 := by
    rw [entryDistF76_169]; norm_num
  rw [selectLoopF_cons_ge _ _ _ _ _ hge169]
  have hge916 : ¬entryDistF (5254199565265579 / 4503599627370496) ("9:16", 9, 16) < 375299968947541 / 2251799813685248 := by
    rw [entryDistF76_916]; norm_num
  rw [selectLoopF_cons_ge _ _ _ _ _ hge916]
  have hge219 : ¬entryDistF (5254199565265579 / 4503599627370496) ("21:9", 21, 9) < 375299968947541 / 2251799813685248 := by
    rw [entryDistF76_219]; norm_num
  rw [selectLoopF_cons_ge _ _ _ _ _ hge219]
  have hge921 : ¬entryDistF (5254199565265579 / 4503599627370496) ("9:21", 9, 21) < 375299968947541 / 2251799813685248 := by
    rw [entryDistF76_921]; norm_num
  rw [selectLoopF_cons_ge _ _ _ _ _ hge921]
  have hge32 : ¬entryDistF (5254199565265579 / 4503599627370496) ("3:2", 3, 2) < 375299968947541 / 2251799813685248 := by
    rw [entryDistF76_32]; norm_num
  rw [selectLoopF_cons_ge _ _ _ _ _ hge32]
  have hge23 : ¬entryDistF (5254199565265579 / 4503599627370496) ("2:3", 2, 3) < 375299968947541 / 2251799813685248 := by
    rw [entryDistF76_23]; norm_num
  rw [selectLoopF_cons_ge _ _ _ _ _ hge23]
  have hge73 : ¬entryDistF (5254199565265579 / 4503599627370496) ("7:3", 7, 3) < 375299968947541 / 2251799813685248 := by
    rw [entryDistF76_73]; norm_num
  rw [selectLoopF_cons_ge _ _ _ _ _ hge73]
  have hge37 : ¬entryDistF (5254199565265579 / 4503599627370496) ("3:7", 3, 7) < 375299968947541 / 2251799813685248 := by
    rw [entryDistF76_37]; norm_num
  rw [selectLoopF_cons_ge _ _ _ _ _ hge37]
  rw [selectLoopF_nil]

end ImageProcessor

namespace Bot

/-- If every step inside the budget continues, the run times out after
exactly the budgeted number of poll requests. -/
theorem edit_image_timeout_of_continues (pu i : Option String)
    (steps : Nat → PollStep) (maxPolls : Nat)
    (hpu : strTruthy pu = true)
    (hcont : ∀ j, j < maxPolls → (steps j).continues = true) :
    edit_image (.resp pu i) steps maxPolls = ⟨.timedOut, maxPolls⟩ := by
  have hedit : edit_image (.resp pu i) steps maxPolls = pollAux steps maxPolls 0 := by
    simp [edit_image, hpu]
  have hskip := pollAux_skip steps maxPolls 0 0 (fun j hj => by simpa using hcont j hj)
  rw [hedit]
  simpa [pollAux] using hskip

/-- Reaching step `k` within the budget after a continuing prefix, then
seeing a terminal `Error` or `Failed` response, body of the claim below. -/
theorem edit_image_failed_at (pu i : Option String) (steps : Nat → PollStep)
    (maxPolls k : Nat) (r : PollResponse) (f : FetchOutcome)
    (hpu : strTruthy pu = true)
    (hk : k < maxPolls)
    (hpre : ∀ j, j < k → (steps j).continues = true)
    (hstep : steps k = .resp r f)
    (hr : r.status = "Error" ∨ r.status = "Failed") :
    edit_image (.resp pu i) steps maxPolls
      = ⟨.jobFailed (r.failure_reason.getD "Unknown error"), k + 1⟩ := by
  have hedit : edit_image (.resp pu i) steps maxPolls = pollAux steps maxPolls 0 := by
    simp [edit_image, hpu]
  obtain ⟨m, hm⟩ : ∃ m, maxPolls - k = m + 1 := ⟨maxPolls - k - 1, by omega⟩
  rw [hedit, pollAux_reach steps k maxPolls hk hpre, hm,
    pollAux_failed steps m k r f hstep hr]

/-- Reaching step `k` within the budget after a continuing prefix, then a
Ready response whose result GET succeeds. -/
theorem edit_image_success_at (pu i : Option String) (steps : Nat → PollStep)
    (maxPolls k : Nat) (r : PollResponse) (bytes : List Nat)
    (hpu : strTruthy pu = true)
    (hk : k < maxPolls)
    (hpre : ∀ j, j < k → (steps j).continues = true)
    (hstep : steps k = .resp r (.ok bytes))
    (hrs : r.status = "Ready") (hrt : strTruthy r.sample = true) :
    edit_image (.resp pu i) steps maxPolls = ⟨.success bytes, k + 1⟩ := by
  have hedit : edit_image (.resp pu i) steps maxPolls = pollAux steps maxPolls 0 := by
    simp [edit_image, hpu]
  obtain ⟨m, hm⟩ : ∃ m, maxPolls - k = m + 1 := ⟨maxPolls - k - 1, by omega⟩
  rw [hedit, pollAux_reach steps k maxPolls hk hpre, hm,
    pollAux_ready_ok steps m k r bytes hstep hrs hrt]

end Bot

/-- C7: for all positive `w`, `h` and positive `k`, the classifier value at
`(k*w, k*h)` equals its value at `(w, h)`: uniform scaling is erased by the
gcd reduction, so both inputs present the same reduced ratio to the
selection loop. -/
theorem classify_scale_invariant (w h k : Nat) (hw : 0 < w) (hh : 0 < h) (hk : 0 < k) :
    ImageProcessor.get_aspect_ratioFn (k * w) (k * h)
      = ImageProcessor.get_aspect_ratioFn w h := by
  have hcur : ImageProcessor.currentRatio (k * w) (k * h)
      = ImageProcessor.currentRatio w h := by
    unfold ImageProcessor.currentRatio
    rw [ImageProcessor.gcd_eq_gcd (k * w) (k * h), ImageProcessor.gcd_eq_gcd w h,
      Nat.gcd_mul_left k h w,
      Nat.mul_div_mul_left w (Nat.gcd h w) hk,
      Nat.mul_div_mul_left h (Nat.gcd h w) hk]
  unfold ImageProcessor.get_aspect_ratioFn
  rw [hcur]

/-- Witness for C7 at `w = 3`, `h = 2`, `k = 5`. -/
theorem classify_scale_invariant_witness :
    0 < 3 ∧ 0 < 2 ∧ 0 < 5
    ∧ ImageProcessor.get_aspect_ratioFn (5 * 3) (5 * 2)
        = ImageProcessor.get_aspect_ratioFn 3 2 :=
  ⟨by decide, by decide, by decide,
    classify_scale_invariant 3 2 5 (by decide) (by decide) (by decide)⟩

/-- C8: the classifier's reference values: `(1,1) ↦ "1:1"`,
`(1920,1080) ↦ "16:9"`, `(1080,1920) ↦ "9:16"`, `(100,100) ↦ "1:1"`. -/
theorem classify_reference_values :
    ImageProcessor.get_aspect_ratioFn 1 1 = "1:1"
    ∧ ImageProcessor.get_aspect_ratioFn 1920 1080 = "16:9"
    ∧ ImageProcessor.get_aspect_ratioFn 1080 1920 = "9:16"
    ∧ ImageProcessor.get_aspect_ratioFn 100 100 = "1:1" := by
  refine ⟨?_, ?_, ?_, ?_⟩ <;>
    norm_num [ImageProcessor.get_aspect_ratioFn, ImageProcessor.currentRatio,
      ImageProcessor.gcd_eq_gcd, ImageProcessor.SUPPORTED_RATIOS,
      ImageProcessor.selectLoop, ImageProcessor.entryDist, ImageProcessor.pyAbs]

/-- C9: the tie-break claim fails on the code. At the input
(width, height) = (7, 6) the reduced ratio 7/6 is, in the spec's
real-number semantics, exactly equidistant from the 1:1 entry (enumerated
first) and the 4:3 entry, and that common distance 1/6 is minimal over the
whole table, so the claim requires the result "1:1". The program, however,
computes the distances in IEEE binary64 arithmetic, where the roundings of
7/6 and 4/3 make the computed distance to 4:3 strictly smaller than the
computed distance to 1:1; the machine rendering of the classifier
therefore returns the later entry "4:3". -/
theorem classify_tie_break_code_bug :
    ImageProcessor.get_aspect_ratioFnF 7 6 = "4:3"
    ∧ ImageProcessor.entryDist (ImageProcessor.currentRatio 7 6) ("1:1", 1, 1)
        = ImageProcessor.entryDist (ImageProcessor.currentRatio 7 6) ("4:3", 4, 3)
    ∧ (∀ e ∈ ImageProcessor.SUPPORTED_RATIOS,
        ImageProcessor.entryDist (ImageProcessor.currentRatio 7 6) ("1:1", 1, 1)
          ≤ ImageProcessor.entryDist (ImageProcessor.currentRatio 7 6) e) := by
  refine ⟨ImageProcessor.get_aspect_ratioFnF_76, ?_, ?_⟩
  · norm_num [ImageProcessor.entryDist, ImageProcessor.currentRatio,
      ImageProcessor.gcd_eq_gcd, ImageProcessor.pyAbs]
  · intro e he
    simp only [ImageProcessor.SUPPORTED_RATIOS] at he
    fin_cases he <;>
      norm_num [ImageProcessor.entryDist, ImageProcessor.currentRatio,
        ImageProcessor.gcd_eq_gcd, ImageProcessor.pyAbs]

/-- C1: whenever the poll loop reaches a response whose status is the
literal `"Error"` or `"Failed"`, the edit operation returns the job-failed
exit immediately, carrying the response's `failure_reason` when present and
`"Unknown error"` otherwise, and the total number of poll requests is
exactly the number needed to reach that response: none are issued after
it. -/
theorem edit_image_failed_status_terminal (pu i : Option String)
    (steps : Nat → Bot.PollStep) (maxPolls k : Nat)
    (r : Bot.PollResponse) (f : Bot.FetchOutcome)
    (hpu : strTruthy pu = true)
    (hk : k < maxPolls)
    (hpre : ∀ j, j < k → (steps j).continues = true)
    (hstep : steps k = .resp r f)
    (hr : r.status = "Error" ∨ r.status = "Failed") :
    Bot.edit_image (.resp pu i) steps maxPolls
      = ⟨.jobFailed (r.failure_reason.getD "Unknown error"), k + 1⟩ :=
  Bot.edit_image_failed_at pu i steps maxPolls k r f hpu hk hpre hstep hr

/-- Witness for C1: a first poll answering
`{"status":"Failed","failure_reason":"nsfw"}` under a budget of 3 yields
the job-failed exit with reason `"nsfw"` after exactly one poll request. -/
theorem edit_image_failed_status_terminal_witness :
    strTruthy (some "p") = true ∧ 0 < 3
    ∧ Bot.edit_image (.resp (some "p") (some "i"))
        (fun _ => .resp ⟨"Failed", none, some "nsfw"⟩ .fetchErr) 3
      = ⟨.jobFailed "nsfw", 0 + 1⟩ :=
  ⟨by decide, by decide,
    edit_image_failed_status_terminal (some "p") (some "i")
      (fun _ => .resp ⟨"Failed", none, some "nsfw"⟩ .fetchErr) 3 0
      ⟨"Failed", none, some "nsfw"⟩ .fetchErr (by decide) (by decide)
      (fun j hj => absurd hj (Nat.not_lt_zero j)) rfl (Or.inr rfl)⟩

/-- C2: if every response within the budget carries a status other than
`"Ready"`, `"Error"` and `"Failed"` (`"Pending"` or any unrecognized
string), the loop polls through the whole budget and the edit operation
returns the timeout exit after exactly `maxPolls` poll requests. -/
theorem edit_image_all_pending_times_out (pu i : Option String)
    (steps : Nat → Bot.PollStep) (maxPolls : Nat)
    (hpu : strTruthy pu = true)
    (hpre : ∀ j, j < maxPolls → ∃ r f, steps j = Bot.PollStep.resp r f
        ∧ r.status ≠ "Ready" ∧ r.status ≠ "Error" ∧ r.status ≠ "Failed") :
    Bot.edit_image (.resp pu i) steps maxPolls = ⟨.timedOut, maxPolls⟩ := by
  apply Bot.edit_image_timeout_of_continues pu i steps maxPolls hpu
  intro j hj
  obtain ⟨r, f, hs, h1, h2, h3⟩ := hpre j hj
  rw [hs]
  simp [Bot.PollStep.continues, h1, h2, h3]

/-- Witness for C2: two all-`"Pending"` responses under a budget of 2 yield
the timeout exit after exactly 2 poll requests. -/
theorem edit_image_all_pending_times_out_witness :
    strTruthy (some "p") = true
    ∧ Bot.edit_image (.resp (some "p") (some "i"))
        (fun _ => .resp ⟨"Pending", none, none⟩ .fetchErr) 2
      = ⟨.timedOut, 2⟩ :=
  ⟨by decide,
    edit_image_all_pending_times_out (some "p") (some "i")
      (fun _ => .resp ⟨"Pending", none, none⟩ .fetchErr) 2 (by decide)
      (fun j _ => ⟨⟨"Pending", none, none⟩, .fetchErr, rfl,
        by decide, by decide, by decide⟩)⟩

/-- C3 counterexample: with a budget of 2, the first poll answers Ready
with a result URL whose GET raises, the second answers Ready again with a
GET that returns `[7]`. Contrary to the claim, the failed result GET does
not yield a result-fetch failure: the run issues a second poll request and
a second fetch attempt and returns success. -/
theorem fetch_error_immediate_failure_counterexample :
    Bot.edit_image (.resp (some "p") (some "i"))
        (fun j => if j = 0 then .resp ⟨"Ready", some "url", none⟩ .fetchErr
          else .resp ⟨"Ready", some "url", none⟩ (.ok [7])) 2
      = ⟨.success [7], 2⟩
    ∧ Bot.fetchAttempts
        (fun j => if j = 0 then .resp ⟨"Ready", some "url", none⟩ .fetchErr
          else .resp ⟨"Ready", some "url", none⟩ (.ok [7])) 2 = 2 := by
  decide

/-- C3 amended: a transport failure on the result GET of a Ready response
is caught by the same handler as a poll transport failure, so the loop
continues to the next iteration, the attempt counts against the poll
budget, and a later Ready response whose result GET succeeds still yields
the successful result (a second fetch attempt does occur). -/
theorem fetch_error_continues_polling (pu i : Option String)
    (steps : Nat → Bot.PollStep) (maxPolls k : Nat)
    (r1 r2 : Bot.PollResponse) (bytes : List Nat)
    (hpu : strTruthy pu = true)
    (hk : k + 1 < maxPolls)
    (hpre : ∀ j, j < k → (steps j).continues = true)
    (h1 : steps k = .resp r1 .fetchErr)
    (h1s : r1.status = "Ready") (h1t : strTruthy r1.sample = true)
    (h2 : steps (k + 1) = .resp r2 (.ok bytes))
    (h2s : r2.status = "Ready") (h2t : strTruthy r2.sample = true) :
    Bot.edit_image (.resp pu i) steps maxPolls = ⟨.success bytes, k + 2⟩ := by
  have hpre1 : ∀ j, j < k + 1 → (steps j).continues = true := by
    intro j hj
    rcases Nat.lt_succ_iff_lt_or_eq.mp hj with hjk | hjk
    · exact hpre j hjk
    · subst hjk
      rw [h1]
      simp [Bot.PollStep.continues, h1s, h1t]
  exact Bot.edit_image_success_at pu i steps maxPolls (k + 1) r2 bytes hpu hk hpre1 h2 h2s h2t

/-- Witness for C3 amended at `k = 0` with a budget of 2. -/
theorem fetch_error_continues_polling_witness :
    strTruthy (some "p") = true ∧ 0 + 1 < 2
    ∧ Bot.edit_image (.resp (some "p") (some "i"))
        (fun j => if j = 0 then .resp ⟨"Ready", some "u", none⟩ .fetchErr
          else .resp ⟨"Ready", some "u", none⟩ (.ok [9])) 2
      = ⟨.success [9], 0 + 2⟩ :=
  ⟨by decide, by decide,
    fetch_error_continues_polling (some "p") (some "i")
      (fun j => if j = 0 then .resp ⟨"Ready", some "u", none⟩ .fetchErr
        else .resp ⟨"Ready", some "u", none⟩ (.ok [9])) 2 0
      ⟨"Ready", some "u", none⟩ ⟨"Ready", some "u", none⟩ [9]
      (by decide) (by decide) (fun j hj => absurd hj (Nat.not_lt_zero j))
      rfl rfl (by decide) rfl rfl (by decide)⟩

/-- C4 counterexample: a run that exhausts a budget of 1 on a `"Pending"`
response and a run whose first response is `"Failed"` take the timeout exit
and the job-failed exit respectively, yet the value handed to the caller
(the Python return value, `None` in both cases) is identical: the caller
cannot distinguish the two error kinds. -/
theorem timeout_vs_failed_same_caller_value_counterexample :
    (Bot.edit_image (.resp (some "p") (some "i"))
        (fun _ => .resp ⟨"Pending", none, none⟩ .fetchErr) 1).result
      = .timedOut
    ∧ (Bot.edit_image (.resp (some "p") (some "i"))
        (fun _ => .resp ⟨"Failed", none, some "boom"⟩ .fetchErr) 1).result
      = .jobFailed "boom"
    ∧ Bot.toOption (Bot.edit_image (.resp (some "p") (some "i"))
        (fun _ => .resp ⟨"Pending", none, none⟩ .fetchErr) 1).result
      = Bot.toOption (Bot.edit_image (.resp (some "p") (some "i"))
        (fun _ => .resp ⟨"Failed", none, some "boom"⟩ .fetchErr) 1).result := by
  decide

/-- C4 amended: on budget exhaustion without a terminal status the
operation takes the timeout exit, which is a distinct exit kind from the
job-failed exit inside the function (they are distinguished only by their
log lines), but both exits are reported to the caller as the same value
`None`, so the caller cannot tell them apart. -/
theorem timeout_distinct_path_uniform_caller_value (pu i : Option String)
    (steps : Nat → Bot.PollStep) (maxPolls : Nat)
    (hpu : strTruthy pu = true)
    (hpre : ∀ j, j < maxPolls → (steps j).pendingLike = true) :
    (Bot.edit_image (.resp pu i) steps maxPolls).result = .timedOut
    ∧ (∀ reason, Bot.EditResult.timedOut ≠ Bot.EditResult.jobFailed reason)
    ∧ Bot.toOption (Bot.edit_image (.resp pu i) steps maxPolls).result = none
    ∧ (∀ reason, Bot.toOption (.jobFailed reason) = none) := by
  have hrun : Bot.edit_image (.resp pu i) steps maxPolls = ⟨.timedOut, maxPolls⟩ :=
    Bot.edit_image_timeout_of_continues pu i steps maxPolls hpu
      (fun j hj => Bot.PollStep.continues_of_pendingLike _ (hpre j hj))
  refine ⟨by rw [hrun], fun reason => by simp, by rw [hrun]; rfl, fun reason => rfl⟩

/-- Witness for C4 amended: one `"Pending"` response under a budget of 1. -/
theorem timeout_distinct_path_uniform_caller_value_witness :
    strTruthy (some "p") = true
    ∧ ((Bot.edit_image (.resp (some "p") (some "i"))
          (fun _ => .resp ⟨"Pending", none, none⟩ .fetchErr) 1).result = .timedOut
      ∧ (∀ reason, Bot.EditResult.timedOut ≠ Bot.EditResult.jobFailed reason)
      ∧ Bot.toOption (Bot.edit_image (.resp (some "p") (some "i"))
          (fun _ => .resp ⟨"Pending", none, none⟩ .fetchErr) 1).result = none
      ∧ (∀ reason, Bot.toOption (.jobFailed reason) = none)) :=
  ⟨by decide,
    timeout_distinct_path_uniform_caller_value (some "p") (some "i")
      (fun _ => .resp ⟨"Pending", none, none⟩ .fetchErr) 1 (by decide)
      (fun j _ => rfl)⟩

/-- C5: a submission response lacking the `polling_url` field, and likewise
a submission POST that raises (connection failure or `raise_for_status` on
a non-2xx response), make the edit operation return the submission-failed
exit with exactly zero poll requests issued; the submission is not
retried. -/
theorem submission_failure_returns_without_polling
    (steps : Nat → Bot.PollStep) (maxPolls : Nat) :
    (∀ i, Bot.edit_image (.resp none i) steps maxPolls = ⟨.submissionFailed, 0⟩)
    ∧ Bot.edit_image .transportError steps maxPolls = ⟨.submissionFailed, 0⟩ :=
  ⟨fun _ => rfl, rfl⟩

/-- C6: a transport failure on one poll attempt does not terminate the
job: the loop continues, the failed attempt counts against the poll budget
(the run below needs `k + 1 < maxPolls`), and a later Ready response whose
result GET succeeds still returns the bytes, after `k + 2` poll
requests. -/
theorem poll_transport_error_not_terminal (pu i : Option String)
    (steps : Nat → Bot.PollStep) (maxPolls k : Nat)
    (r : Bot.PollResponse) (bytes : List Nat)
    (hpu : strTruthy pu = true)
    (hk : k + 1 < maxPolls)
    (hpre : ∀ j, j < k → (steps j).continues = true)
    (herr : steps k = Bot.PollStep.transportError)
    (hnext : steps (k + 1) = .resp r (.ok bytes))
    (hrs : r.status = "Ready") (hrt : strTruthy r.sample = true) :
    Bot.edit_image (.resp pu i) steps maxPolls = ⟨.success bytes, k + 2⟩ := by
  have hpre1 : ∀ j, j < k + 1 → (steps j).continues = true := by
    intro j hj
    rcases Nat.lt_succ_iff_lt_or_eq.mp hj with hjk | hjk
    · exact hpre j hjk
    · subst hjk
      rw [herr]
      rfl
  exact Bot.edit_image_success_at pu i steps maxPolls (k + 1) r bytes hpu hk hpre1 hnext hrs hrt

/-- Witness for C6: transport error on poll 1, Ready with bytes `[3]` on
poll 2, budget 3. -/
theorem poll_transport_error_not_terminal_witness :
    strTruthy (some "p") = true ∧ 0 + 1 < 3
    ∧ Bot.edit_image (.resp (some "p") (some "i"))
        (fun j => if j = 0 then .transportError
          else .resp ⟨"Ready", some "u", none⟩ (.ok [3])) 3
      = ⟨.success [3], 0 + 2⟩ :=
  ⟨by decide, by decide,
    poll_transport_error_not_terminal (some "p") (some "i")
      (fun j => if j = 0 then .transportError
        else .resp ⟨"Ready", some "u", none⟩ (.ok [3])) 3 0
      ⟨"Ready", some "u", none⟩ [3]
      (by decide) (by decide) (fun j hj => absurd hj (Nat.not_lt_zero j))
      rfl rfl rfl (by decide)⟩

/-- C10: a Ready response whose result object lacks the `sample` field
makes the edit operation return the no-sample failure exit (reported to
the caller as `None`) immediately: exactly the polls needed to reach it
are issued, and no result GET is attempted in the whole run. -/
theorem ready_without_sample_fails_immediately (pu i : Option String)
    (steps : Nat → Bot.PollStep) (maxPolls k : Nat)
    (r : Bot.PollResponse) (f : Bot.FetchOutcome)
    (hpu : strTruthy pu = true)
    (hk : k < maxPolls)
    (hpre : ∀ j, j < k → (steps j).pendingLike = true)
    (hstep : steps k = .resp r f)
    (hrs : r.status = "Ready") (hns : r.sample = none) :
    Bot.edit_image (.resp pu i) steps maxPolls = ⟨.readyNoSample, k + 1⟩
    ∧ Bot.fetchAttempts steps (k + 1) = 0
    ∧ Bot.toOption .readyNoSample = none := by
  refine ⟨?_, ?_, rfl⟩
  · have hedit : Bot.edit_image (.resp pu i) steps maxPolls
        = Bot.pollAux steps maxPolls 0 := by
      simp [Bot.edit_image, hpu]
    obtain ⟨m, hm⟩ : ∃ m, maxPolls - k = m + 1 := ⟨maxPolls - k - 1, by omega⟩
    have hcont : ∀ j, j < k → (steps j).continues = true :=
      fun j hj => Bot.PollStep.continues_of_pendingLike _ (hpre j hj)
    rw [hedit, Bot.pollAux_reach steps k maxPolls hk hcont, hm,
      Bot.pollAux_ready_noSample steps m k r f hstep hrs (by rw [hns]; rfl)]
  · apply Bot.fetchAttempts_eq_zero
    intro j hj
    rcases Nat.lt_succ_iff_lt_or_eq.mp hj with hjk | hjk
    · exact Bot.PollStep.not_fetch_of_pendingLike _ (hpre j hjk)
    · subst hjk
      rw [hstep]
      simp [Bot.isFetchStep, hns, strTruthy]

/-- Witness for C10: the first poll answers Ready without a sample field,
under a budget of 3. -/
theorem ready_without_sample_fails_immediately_witness :
    strTruthy (some "p") = true ∧ 0 < 3
    ∧ (Bot.edit_image (.resp (some "p") (some "i"))
          (fun _ => .resp ⟨"Ready", none, some "r"⟩ .fetchErr) 3
        = ⟨.readyNoSample, 0 + 1⟩
      ∧ Bot.fetchAttempts
          (fun _ => .resp ⟨"Ready", none, some "r"⟩ .fetchErr) (0 + 1) = 0
      ∧ Bot.toOption .readyNoSample = none) :=
  ⟨by decide, by decide,
    ready_without_sample_fails_immediately (some "p") (some "i")
      (fun _ => .resp ⟨"Ready", none, some "r"⟩ .fetchErr) 3 0
      ⟨"Ready", none, some "r"⟩ .fetchErr
      (by decide) (by decide)
      (fun j hj => absurd hj (Nat.not_lt_zero j))
      rfl rfl rfl⟩

